import Mathlib

/-!
Shallow embedding of the `astro-turkish-api` HTTP service.

The reference implementation is `src/server.js` (the AstroVogue multi-language
variant); `src/unnamed/part_000` is the Turkish OpenAI-only variant with a soft
static fallback on generator failure, and `src/unnamed/part_001` is the
astrology-data-API (Aztro) variant.  Each request handler is modelled as a pure
function from the external world's behaviour (the generator's outcome, the
current wall-clock time in milliseconds, the formatted date strings) and the
current cache store to a response, an updated cache store, and an observation
of whether the external generator was invoked.
-/

set_option maxHeartbeats 1000000

namespace AstroApi

/-- The twelve zodiac sign identifiers (`SIGNS` in `server.js`). -/
def SIGNS : List String :=
  ["aries","taurus","gemini","cancer","leo","virgo",
   "libra","scorpio","sagittarius","capricorn","aquarius","pisces"]

/-- Valid day selectors (`DAY_VALUES`). -/
def DAY_VALUES : List String := ["today","tomorrow","yesterday"]

/-- Supported language codes (`LANGS`). -/
def LANGS : List String := ["en","tr","es","dk"]

/-- JavaScript `String(x || d)` for a query/body parameter that is either
absent (`none`) or a string: the empty string is falsy, so both an absent
parameter and an empty one produce the default `d`. -/
def jsStringOr (x : Option String) (d : String) : String :=
  match x with
  | none => d
  | some s => if s = "" then d else s

/-- `String.prototype.toLowerCase()` restricted to the ASCII range the API
compares against (`Char.toLower` lowers exactly the ASCII letters),
written over the character list so it reduces in the kernel. -/
def jsToLower (s : String) : String := String.mk (s.data.map Char.toLower)

/-- JavaScript truthiness filter on an optional string field of a JSON
object: `undefined`/`null` (here `none`) and `""` are falsy. -/
def truthyStr (x : Option String) : Option String :=
  match x with
  | none => none
  | some s => if s = "" then none else some s

/-- `x || d` on an optional string field: the default replaces an absent,
null, or empty value. -/
def orDefault (x : Option String) (d : String) : String :=
  match truthyStr x with
  | some s => s
  | none => d

/-- Lookup in a JS object literal used as a table (`obj[key]`). -/
def assocLookup (m : List (String × String)) (k : String) : Option String :=
  (m.find? (fun p => p.1 == k)).map (fun p => p.2)

/-! ## The ephemeral response cache

`const cache = Object.create(null)` with
`cache[key]` reads and `cache[key] = { data, expiresAt }` writes,
modelled as an association list from key strings to entries. -/

/-- A cache entry `{ data, expiresAt }`; `expiresAt` is a `Date.now()`-style
millisecond timestamp. -/
structure CacheEntry (α : Type) where
  data : α
  expiresAt : Nat
deriving DecidableEq, Repr

/-- The cache store: a mapping from key strings to entries. -/
def CacheStore (α : Type) : Type := List (String × CacheEntry α)

instance (α : Type) [DecidableEq α] : DecidableEq (CacheStore α) := by
  unfold CacheStore; infer_instance

/-- `cache[key]`: the entry currently stored under `key`, if any. -/
def cacheGet {α : Type} (c : CacheStore α) (k : String) : Option (CacheEntry α) :=
  (c.find? (fun p => p.1 == k)).map (fun p => p.2)

/-- `cache[key] = e`: unconditionally overwrite the binding for `key`. -/
def cachePut {α : Type} (c : CacheStore α) (k : String) (e : CacheEntry α) :
    CacheStore α :=
  (k, e) :: c.filter (fun p => p.1 ≠ k)

/-- The read-side expiry check `cache[key]?.expiresAt > Date.now()`:
returns the stored entry only when it is present and unexpired. -/
def cacheHit {α : Type} (c : CacheStore α) (k : String) (now : Nat) :
    Option (CacheEntry α) :=
  match cacheGet c k with
  | some e => if e.expiresAt > now then some e else none
  | none => none

/-! ## Localized fashion-tip tables (`fashionTip` in `server.js`) -/

/-- A per-language pack `{ byColor, byMood }`. -/
structure LangPack where
  byColor : List (String × String)
  byMood : List (String × String)

def packEn : LangPack :=
  { byColor :=
      [("Red", "Go for a bold accent. A red bag or lip is enough."),
       ("Blue", "Light blue or denim balances the day."),
       ("Green", "Natural textures echo inner calm."),
       ("Pink", "Soft pink details add warmth."),
       ("Black", "Keep a clean silhouette."),
       ("Gray", "Structured neutrals look sharp."),
       ("Grey", "Structured neutrals look sharp.")],
    byMood :=
      [("Balanced", "Refined and pared back."),
       ("Energetic", "Blend sporty and chic."),
       ("Romantic", "Airy fabrics and pastels."),
       ("Calm", "Neutral tones and relaxed cuts.")] }

def packTr : LangPack :=
  { byColor :=
      [("Kırmızı", "Küçük bir kırmızı detay yeterli. Çanta ya da ruj."),
       ("Mavi", "Açık mavi veya denim denge sağlar."),
       ("Yeşil", "Doğal dokular huzur verir."),
       ("Pembe", "Yumuşak pembe sıcaklık katar."),
       ("Siyah", "Net siluetle güçlü görün."),
       ("Gri", "Yapılı nötrler şık durur.")],
    byMood :=
      [("Dengeli", "Zarif ve yalın kal."),
       ("Enerjik", "Spor-şık karıştır."),
       ("Romantik", "Hafif kumaşlar ve pasteller."),
       ("Sakin", "Nötr tonlar ve rahat kesimler.")] }

def packEs : LangPack :=
  { byColor :=
      [("Rojo", "Un detalle rojo basta. Bolso o labial."),
       ("Azul", "Azul claro o denim equilibra el día."),
       ("Verde", "Texturas naturales aportan calma."),
       ("Rosa", "Rosa suave añade calidez."),
       ("Negro", "Silueta limpia y firme."),
       ("Gris", "Neutros estructurados.")],
    byMood :=
      [("Equilibrado", "Depurado y elegante."),
       ("Energético", "Mezcla sport y chic."),
       ("Romántico", "Tejidos ligeros y pasteles."),
       ("Sereno", "Neutros y cortes cómodos.")] }

def packDk : LangPack :=
  { byColor :=
      [("Rød", "Et lille rødt touch er nok. Taske eller læbe."),
       ("Blå", "Lyseblå eller denim giver balance."),
       ("Grøn", "Naturlige teksturer giver ro."),
       ("Lyserød", "Bløde lyserøde detaljer."),
       ("Sort", "Ren og stærk silhuet."),
       ("Grå", "Strukturerede neutrale toner.")],
    byMood :=
      [("Balanceret", "Raffineret og enkelt."),
       ("Energisk", "Mix sporty og elegant."),
       ("Romantisk", "Let stof og pasteller."),
       ("Rolig", "Neutrale farver og afslappede snit.")] }

/-- `map[lang]` inside `fashionTip`. -/
def langPack (lang : String) : Option LangPack :=
  if lang = "en" then some packEn
  else if lang = "tr" then some packTr
  else if lang = "es" then some packEs
  else if lang = "dk" then some packDk
  else none

/-- `fashionTip(color, mood, lang)` from `server.js`: colour entry first,
then mood entry, else the empty string; an absent pack gives `""`. -/
def fashionTip (color mood : Option String) (lang : String) : String :=
  match langPack lang with
  | none => ""
  | some pack =>
    match (truthyStr color).bind (assocLookup pack.byColor) with
    | some t => t
    | none =>
      match (truthyStr mood).bind (assocLookup pack.byMood) with
      | some t => t
      | none => ""

/-! ## Generator results and payload shaping for `GET /api/daily` -/

/-- The untyped JSON object `j` returned by the text generator for the daily
endpoint; each expected field may be absent/null (`none`) or a string, and
`palette` may be absent or an array. -/
structure GenDaily where
  description : Option String := none
  mood : Option String := none
  color : Option String := none
  compatibility : Option String := none
  lucky_number : Option String := none
  lucky_time : Option String := none
  paragraph : Option String := none
  fashion_tip : Option String := none
  beauty_tip : Option String := none
  style_advice : Option String := none
  accessory_highlight : Option String := none
  palette : Option (List String) := none
deriving DecidableEq, Repr

/-- A generator result in which every field is absent. -/
def emptyGenDaily : GenDaily := {}

/-- Outcome of the external generator call: a parsed JSON object, or a
thrown error (transport failure, non-2xx status, malformed content, or a
missing API key). -/
inductive GenOutcome (γ : Type) where
  | ok (j : γ)
  | fail
deriving DecidableEq, Repr

/-- `SIGN_IMAGES[sign] || "/img/placeholder.jpg"`. -/
def signImage (s : String) : String :=
  if s ∈ SIGNS then "/img/" ++ s ++ ".jpg" else "/img/placeholder.jpg"

/-- The localized affiliate label in the payload literal. -/
def affiliateLabel (lang : String) : String :=
  if lang = "tr" then "Bu görünümü keşfet"
  else if lang = "es" then "Compra el look"
  else if lang = "dk" then "Shop looket"
  else "Shop the look"

/-- `Array.isArray(j.palette) && j.palette.length ? j.palette.slice(0,5) : []`. -/
def paletteOf (p : Option (List String)) : List String :=
  match p with
  | some l => if l.length ≠ 0 then l.take 5 else []
  | none => []

/-- The shaped `/api/daily` response payload of `server.js`. -/
structure DailyPayload where
  brand : String
  sign : String
  lang : String
  date : String
  description : String
  mood : String
  color : String
  compatibility : String
  lucky_number : String
  lucky_time : String
  paragraph : String
  fashion_tip : String
  beauty_tip : String
  style_advice : String
  accessory_highlight : String
  palette : List String
  image : String
  affiliate_url : String
  affiliate_label : String
deriving DecidableEq, Repr

/-- The `payload` object literal built in the `/api/daily` handler of
`server.js` from the generator result `j` and the normalized parameters.
`dateF` stands in for `dateFor(lang, day)` (wall-clock date formatting). -/
def mkDailyPayload (dateF : String → String → String) (j : GenDaily)
    (sign day lang : String) : DailyPayload :=
  { brand := "AstroVogue"
    sign := sign
    lang := lang
    date := dateF lang day
    description := orDefault j.description ""
    mood := orDefault j.mood ""
    color := orDefault j.color ""
    compatibility := orDefault j.compatibility ""
    lucky_number := orDefault j.lucky_number ""
    lucky_time := orDefault j.lucky_time ""
    paragraph := orDefault j.paragraph ""
    fashion_tip := orDefault j.fashion_tip (fashionTip j.color j.mood lang)
    beauty_tip := orDefault j.beauty_tip ""
    style_advice := orDefault j.style_advice ""
    accessory_highlight := orDefault j.accessory_highlight ""
    palette := paletteOf j.palette
    image := signImage sign
    affiliate_url := "https://www.example.com/red-accessories?ref=astrovogue"
    affiliate_label := affiliateLabel lang }

/-! ## HTTP responses and handler steps -/

/-- A JSON response body: either `{ error: msg }` or a payload. -/
inductive Body (α : Type) where
  | err (msg : String)
  | payload (p : α)
deriving DecidableEq, Repr

/-- An HTTP response: status code plus JSON body. -/
structure Resp (α : Type) where
  status : Nat
  body : Body α
deriving DecidableEq, Repr

/-- The observable effect of one request: the response sent, the cache store
afterwards, and whether the external generator was invoked. -/
structure Step (α : Type) where
  resp : Resp α
  cache : CacheStore α
  generatorCalled : Bool

instance (α : Type) [DecidableEq α] : DecidableEq (Step α) := by
  intro a b
  cases a; cases b
  rw [Step.mk.injEq]
  infer_instance

/-- The raw query parameters of a `GET /api/daily` request; each may be
absent. -/
structure DailyReq where
  sign : Option String := none
  day : Option String := none
  lang : Option String := none
deriving DecidableEq, Repr

/-- Daily-endpoint TTL: `20 * 60 * 1000` milliseconds. -/
def DAILY_TTL : Nat := 20 * 60 * 1000

/-- The cache key `` `daily:${sign}:${day}:${lang}` `` of `server.js`. -/
def dailyCacheKey (sign day lang : String) : String :=
  "daily:" ++ sign ++ ":" ++ day ++ ":" ++ lang

/-- `String(req.query.sign || "").toLowerCase()`. -/
def normSign (req : DailyReq) : String := jsToLower (jsStringOr req.sign "")

/-- `String(req.query.day || "today").toLowerCase()`. -/
def normDay (req : DailyReq) : String := jsToLower (jsStringOr req.day "today")

/-- `String(req.query.lang || "en").toLowerCase()`. -/
def normLang (req : DailyReq) : String := jsToLower (jsStringOr req.lang "en")

/-- The cache key computed for a given daily request. -/
def reqKey (req : DailyReq) : String :=
  dailyCacheKey (normSign req) (normDay req) (normLang req)

/-- The `GET /api/daily` handler of `server.js`: normalization, validation
against the three enumerations, cache lookup with lazy expiry, generator
call on a miss, payload shaping, cache overwrite, and the `catch` clause
that turns a thrown generator error into a 500. -/
def dailyHandler (dateF : String → String → String) (gen : GenOutcome GenDaily)
    (now : Nat) (c : CacheStore DailyPayload) (req : DailyReq) :
    Step DailyPayload :=
  if normSign req ∉ SIGNS then ⟨⟨400, Body.err "Invalid sign"⟩, c, false⟩
  else if normDay req ∉ DAY_VALUES then ⟨⟨400, Body.err "Invalid day"⟩, c, false⟩
  else if normLang req ∉ LANGS then ⟨⟨400, Body.err "Invalid lang"⟩, c, false⟩
  else
    match cacheHit c (reqKey req) now with
    | some e => ⟨⟨200, Body.payload e.data⟩, c, false⟩
    | none =>
      match gen with
      | GenOutcome.fail => ⟨⟨500, Body.err "Server error"⟩, c, true⟩
      | GenOutcome.ok j =>
        ⟨⟨200, Body.payload
            (mkDailyPayload dateF j (normSign req) (normDay req) (normLang req))⟩,
         cachePut c (reqKey req)
           ⟨mkDailyPayload dateF j (normSign req) (normDay req) (normLang req),
            now + DAILY_TTL⟩, true⟩

/-! ## `POST /api/personalized` (`server.js`) -/

/-- The generator JSON object for the personalized endpoint. -/
structure GenPers where
  summary : Option String := none
  guidance : Option String := none
  color : Option String := none
  mood : Option String := none
  compatibility : Option String := none
  paragraph : Option String := none
  fashion_tip : Option String := none
  beauty_tip : Option String := none
  style_advice : Option String := none
  accessory_highlight : Option String := none
  palette : Option (List String) := none
deriving DecidableEq, Repr

/-- The shaped `/api/personalized` response payload of `server.js`. -/
structure PersPayload where
  brand : String
  lang : String
  date : String
  sun : String
  rising : String
  summary : String
  guidance : String
  color : String
  mood : String
  compatibility : String
  paragraph : String
  fashion_tip : String
  beauty_tip : String
  style_advice : String
  accessory_highlight : String
  palette : List String
  image : String
  affiliate_url : String
  affiliate_label : String
deriving DecidableEq, Repr

/-- The raw body fields of a `POST /api/personalized` request. -/
structure PersReq where
  sun : Option String := none
  rising : Option String := none
  day : Option String := none
  lang : Option String := none
deriving DecidableEq, Repr

/-- The payload literal built in the `/api/personalized` handler. -/
def mkPersPayload (dateF : String → String → String) (j : GenPers)
    (sun rising day lang : String) : PersPayload :=
  { brand := "AstroVogue"
    lang := lang
    date := dateF lang day
    sun := sun
    rising := rising
    summary := orDefault j.summary ""
    guidance := orDefault j.guidance ""
    color := orDefault j.color ""
    mood := orDefault j.mood ""
    compatibility := orDefault j.compatibility ""
    paragraph := orDefault j.paragraph ""
    fashion_tip := orDefault j.fashion_tip (fashionTip j.color j.mood lang)
    beauty_tip := orDefault j.beauty_tip ""
    style_advice := orDefault j.style_advice ""
    accessory_highlight := orDefault j.accessory_highlight ""
    palette := paletteOf j.palette
    image := signImage sun
    affiliate_url := "https://www.example.com/red-accessories?ref=astrovogue"
    affiliate_label := affiliateLabel lang }

/-- The observable effect of one personalized request.  The handler shares
the process-wide `cache` object with the daily endpoint, so the daily cache
store is threaded through to observe whether it is touched. -/
structure PersStep where
  resp : Resp PersPayload
  cache : CacheStore DailyPayload
  generatorCalled : Bool

/-- The `POST /api/personalized` handler of `server.js`: validation, a
generator call on every accepted request, payload shaping, and the `catch`
clause that turns a thrown generator error into a 500.  The handler body
never mentions the `cache` object. -/
def persHandler (dateF : String → String → String) (gen : GenOutcome GenPers)
    (c : CacheStore DailyPayload) (req : PersReq) : PersStep :=
  if jsToLower (jsStringOr req.sun "") ∉ SIGNS then
    ⟨⟨400, Body.err "Invalid sun"⟩, c, false⟩
  else if jsToLower (jsStringOr req.rising "") ≠ "" ∧
      jsToLower (jsStringOr req.rising "") ∉ SIGNS then
    ⟨⟨400, Body.err "Invalid rising"⟩, c, false⟩
  else if jsToLower (jsStringOr req.day "today") ∉ DAY_VALUES then
    ⟨⟨400, Body.err "Invalid day"⟩, c, false⟩
  else if jsToLower (jsStringOr req.lang "en") ∉ LANGS then
    ⟨⟨400, Body.err "Invalid lang"⟩, c, false⟩
  else
    match gen with
    | GenOutcome.fail => ⟨⟨500, Body.err "Server error"⟩, c, true⟩
    | GenOutcome.ok j =>
      ⟨⟨200, Body.payload
          (mkPersPayload dateF j (jsToLower (jsStringOr req.sun ""))
            (jsToLower (jsStringOr req.rising ""))
            (jsToLower (jsStringOr req.day "today"))
            (jsToLower (jsStringOr req.lang "en")))⟩, c, true⟩

/-! ## The Turkish OpenAI-only variant (`src/unnamed/part_000`) -/

/-- `TR_SIGN`: Turkish names for the twelve signs. -/
def TR_SIGN : List (String × String) :=
  [("aries", "Koç"), ("taurus", "Boğa"), ("gemini", "İkizler"),
   ("cancer", "Yengeç"), ("leo", "Aslan"), ("virgo", "Başak"),
   ("libra", "Terazi"), ("scorpio", "Akrep"), ("sagittarius", "Yay"),
   ("capricorn", "Oğlak"), ("aquarius", "Kova"), ("pisces", "Balık")]

/-- `tipsByColor` of the variant's `fashionTip`. -/
def tipsByColorTr : List (String × String) :=
  [("Gri", "Sade tonlar ve net kesimler seç."),
   ("Mavi", "Açık mavi veya denim dengeleme sağlar."),
   ("Kırmızı", "Küçük bir kırmızı aksesuar enerji katar."),
   ("Yeşil", "Doğal tonlar iç huzuru yansıtır."),
   ("Pembe", "Yumuşak detaylarla sıcaklık ekle."),
   ("Siyah", "Minimal ve güçlü bir siluet uygula.")]

/-- `tipsByMood` of the variant's `fashionTip`. -/
def tipsByMoodTr : List (String × String) :=
  [("Dengeli", "Zarif ve yalın kal."),
   ("Enerjik", "Spor-şık parçaları karıştır."),
   ("Romantik", "Pastel dokulara yönel."),
   ("Sakin", "Nötr ve rahat kesimler kullan.")]

/-- `fashionTip(color, mood)` of `part_000`:
`tipsByColor[color] || tipsByMood[mood] || "Zarif bir aksesuar ekle."`. -/
def fashionTipTr (color mood : String) : String :=
  match assocLookup tipsByColorTr color with
  | some t => t
  | none =>
    match assocLookup tipsByMoodTr mood with
    | some t => t
    | none => "Zarif bir aksesuar ekle."

/-- The generator JSON object of the Turkish variant's daily endpoint. -/
structure GenTr where
  aciklama : Option String := none
  ruh_hali : Option String := none
  renk : Option String := none
  uyum : Option String := none
  sansli_sayi : Option String := none
  sansli_saat : Option String := none
  analiz : Option String := none
deriving DecidableEq, Repr

/-- The shaped daily payload of the Turkish variant. -/
structure TrPayload where
  marka : String
  burc : String
  gun : String
  tarih : String
  aciklama : String
  uyum : String
  ruh_hali : String
  renk : String
  sansli_sayi : String
  sansli_saat : String
  analiz : String
  moda_onerisi : String
deriving DecidableEq, Repr

/-- The raw query parameters of the Turkish variant's daily request. -/
structure TrReq where
  sign : Option String := none
  day : Option String := none
deriving DecidableEq, Repr

/-- The success-path payload of the Turkish variant: `j.renk` and
`j.ruh_hali` are first overwritten with their defaults
(`j.renk = j.renk || "Gri"; j.ruh_hali = j.ruh_hali || "Dengeli"`), and the
styling suggestion is derived from the defaulted pair. -/
def mkTrPayload (todayStr : String) (j : GenTr) (sign day : String) :
    TrPayload :=
  let renk := orDefault j.renk "Gri"
  let ruhHali := orDefault j.ruh_hali "Dengeli"
  { marka := "AstroVogue"
    burc := (assocLookup TR_SIGN sign).getD ""
    gun := day
    tarih := todayStr
    aciklama := orDefault j.aciklama ""
    uyum := orDefault j.uyum ""
    ruh_hali := ruhHali
    renk := renk
    sansli_sayi := orDefault j.sansli_sayi ""
    sansli_saat := orDefault j.sansli_saat ""
    analiz := orDefault j.analiz ""
    moda_onerisi := fashionTipTr renk ruhHali }

/-- The static fallback payload sent by the variant's `catch` clause (with
default status 200); note the raw, un-lowercased `req.query.day || "today"`
and `TR_SIGN[...] || "—"`. -/
def trFallbackPayload (todayStr : String) (req : TrReq) : TrPayload :=
  { marka := "AstroVogue"
    burc := match assocLookup TR_SIGN (jsToLower (jsStringOr req.sign "")) with
            | some t => t
            | none => "—"
    gun := jsStringOr req.day "today"
    tarih := todayStr
    aciklama := "Günü basit planla ve iletişimde net ol."
    uyum := "Yengeç"
    ruh_hali := "Dengeli"
    renk := "Gri"
    sansli_sayi := "4"
    sansli_saat := "14:00"
    analiz := "Odak dağılmasın. Sakin ilerle."
    moda_onerisi := "Sade tonlar ve net kesimler seç." }

/-- Turkish variant TTL: `30 * 60 * 1000` milliseconds. -/
def TR_TTL : Nat := 30 * 60 * 1000

/-- `String(req.query.sign || "").toLowerCase()` of the two-parameter
variants. -/
def trNormSign (req : TrReq) : String := jsToLower (jsStringOr req.sign "")

/-- `String(req.query.day || "today").toLowerCase()` of the two-parameter
variants. -/
def trNormDay (req : TrReq) : String := jsToLower (jsStringOr req.day "today")

/-- The cache key `` `daily:${sign}:${day}` `` of `part_000`. -/
def trKey (req : TrReq) : String :=
  "daily:" ++ trNormSign req ++ ":" ++ trNormDay req

/-- The `GET /api/daily` handler of `part_000`: validation over sign and day
only, cache key `` `daily:${sign}:${day}` ``, and a `catch` clause that
answers 200 with the static fallback payload when the generator throws. -/
def trDailyHandler (todayStr : String) (gen : GenOutcome GenTr) (now : Nat)
    (c : CacheStore TrPayload) (req : TrReq) : Step TrPayload :=
  if trNormSign req ∉ SIGNS then ⟨⟨400, Body.err "Geçersiz burç."⟩, c, false⟩
  else if trNormDay req ∉ DAY_VALUES then ⟨⟨400, Body.err "Geçersiz gün."⟩, c, false⟩
  else
    match cacheHit c (trKey req) now with
    | some e => ⟨⟨200, Body.payload e.data⟩, c, false⟩
    | none =>
      match gen with
      | GenOutcome.fail =>
        ⟨⟨200, Body.payload (trFallbackPayload todayStr req)⟩, c, true⟩
      | GenOutcome.ok j =>
        ⟨⟨200, Body.payload (mkTrPayload todayStr j (trNormSign req) (trNormDay req))⟩,
         cachePut c (trKey req)
           ⟨mkTrPayload todayStr j (trNormSign req) (trNormDay req), now + TR_TTL⟩, true⟩

/-! ## The astrology-data-API (Aztro) variant (`src/unnamed/part_001`) -/

/-- The JSON object returned by the Aztro data source. -/
structure AztroData where
  current_date : Option String := none
  description : Option String := none
  compatibility : Option String := none
  mood : Option String := none
  color : Option String := none
  lucky_number : Option String := none
  lucky_time : Option String := none
deriving DecidableEq, Repr

/-- Outcome of one `fetch` against the Aztro data source: parsed JSON on a
2xx status, otherwise the thrown error's message (`getAztro` throws on
`!res.ok`, and transport failures reject as well). -/
inductive FetchOutcome where
  | ok (d : AztroData)
  | fail (msg : String)
deriving DecidableEq, Repr

/-- `buildAnalysis(trSign, payload)` of `part_001`: collects the present
fields, prefixed, and joins them with `" • "`. -/
def buildAnalysis (trS : String) (d : AztroData) : String :=
  let parts :=
    (match truthyStr d.description with
     | some s => [s.trim]
     | none => []) ++
    (match truthyStr d.compatibility with
     | some s => ["Uyum: " ++ s]
     | none => []) ++
    (match truthyStr d.mood with
     | some s => ["Ruh hali: " ++ s]
     | none => []) ++
    (match truthyStr d.color with
     | some s => ["Günün rengi: " ++ s]
     | none => []) ++
    (match truthyStr d.lucky_number with
     | some s => ["Şanslı sayı: " ++ s]
     | none => []) ++
    (match truthyStr d.lucky_time with
     | some s => ["Şanslı zaman: " ++ s]
     | none => [])
  trS ++ " için kısa analiz: " ++ String.intercalate " • " parts

/-- The shaped daily payload of the Aztro variant; `tarih` is
`data?.current_date || null`, hence optional, and `raw` echoes the source
data. -/
structure AztroPayload where
  burc : String
  gun : String
  tarih : Option String
  aciklama : String
  uyum : String
  ruh_hali : String
  renk : String
  sansli_sayi : String
  sansli_saat : String
  analiz : String
  raw : AztroData
deriving DecidableEq, Repr

/-- The observable effect of one Aztro-variant daily request, including how
many times the data source was fetched. -/
structure AztroStep where
  resp : Resp AztroPayload
  cache : CacheStore AztroPayload
  attempts : Nat

/-- The payload literal of the Aztro variant's success path. -/
def mkAztroPayload (d : AztroData) (sign day : String) : AztroPayload :=
  { burc := (assocLookup TR_SIGN sign).getD ""
    gun := day
    tarih := truthyStr d.current_date
    aciklama := orDefault d.description ""
    uyum := orDefault d.compatibility ""
    ruh_hali := orDefault d.mood ""
    renk := orDefault d.color ""
    sansli_sayi := orDefault d.lucky_number ""
    sansli_saat := orDefault d.lucky_time ""
    analiz := buildAnalysis ((assocLookup TR_SIGN sign).getD "") d
    raw := d }

/-- The `GET /api/daily` handler of `part_001`: validation, cache key
`` `${sign}:${day}` `` with a 30-minute TTL, a single `getAztro` fetch on a
miss (`getAztro` calls `fetch` exactly once and throws on failure), and a
`catch` clause answering 500 with the error message. -/
def aztroDailyHandler (fetch1 : FetchOutcome) (now : Nat)
    (c : CacheStore AztroPayload) (req : TrReq) : AztroStep :=
  if trNormSign req ∉ SIGNS then
    ⟨⟨400, Body.err ("Invalid sign. Use one of: " ++ String.intercalate ", " SIGNS)⟩, c, 0⟩
  else if trNormDay req ∉ DAY_VALUES then
    ⟨⟨400, Body.err "Invalid day. Use today, tomorrow, or yesterday."⟩, c, 0⟩
  else
    match cacheHit c (trNormSign req ++ ":" ++ trNormDay req) now with
    | some e => ⟨⟨200, Body.payload e.data⟩, c, 0⟩
    | none =>
      match fetch1 with
      | FetchOutcome.fail msg => ⟨⟨500, Body.err msg⟩, c, 1⟩
      | FetchOutcome.ok d =>
        ⟨⟨200, Body.payload (mkAztroPayload d (trNormSign req) (trNormDay req))⟩,
         cachePut c (trNormSign req ++ ":" ++ trNormDay req)
           ⟨mkAztroPayload d (trNormSign req) (trNormDay req), now + TR_TTL⟩, 1⟩

/-! ## Helper lemmas -/

theorem cacheHit_eq_some_iff {α : Type} (c : CacheStore α) (k : String)
    (now : Nat) (e : CacheEntry α) :
    cacheHit c k now = some e ↔ (cacheGet c k = some e ∧ now < e.expiresAt) := by
  unfold cacheHit
  cases h : cacheGet c k with
  | none => simp
  | some e' =>
    dsimp only
    by_cases hlt : e'.expiresAt > now
    · rw [if_pos hlt]
      constructor
      · intro hh
        injection hh with hh
        subst hh
        exact ⟨rfl, hlt⟩
      · rintro ⟨he, _⟩
        exact he
    · rw [if_neg hlt]
      constructor
      · intro hh
        cases hh
      · rintro ⟨he, hlt2⟩
        injection he with he
        subst he
        exact absurd hlt2 hlt

theorem cacheGet_cachePut_self {α : Type} (c : CacheStore α) (k : String)
    (e : CacheEntry α) :
    cacheGet (cachePut c k e) k = some e := by
  unfold cacheGet cachePut
  rw [List.find?_cons_of_pos _ (by simp)]
  rfl

theorem persHandler_cache_frame (dateF : String → String → String)
    (gen : GenOutcome GenPers) (c : CacheStore DailyPayload) (req : PersReq) :
    (persHandler dateF gen c req).cache = c := by
  unfold persHandler
  repeat' split
  all_goals rfl

theorem colon_append_inj : ∀ (a b x y : List Char), ':' ∉ a → ':' ∉ b →
    a ++ ':' :: x = b ++ ':' :: y → a = b ∧ x = y := by
  intro a
  induction a with
  | nil =>
    intro b x y ha hb h
    cases b with
    | nil =>
      simp only [List.nil_append] at h
      injection h with h1 h2
      exact ⟨rfl, h2⟩
    | cons c bs =>
      simp only [List.nil_append, List.cons_append] at h
      injection h with h1 h2
      exact absurd (h1 ▸ List.mem_cons_self c bs) hb
  | cons c as ih =>
    intro b x y ha hb h
    cases b with
    | nil =>
      simp only [List.nil_append, List.cons_append] at h
      injection h with h1 h2
      exact absurd (h1 ▸ List.mem_cons_self c as) ha
    | cons c' bs =>
      simp only [List.cons_append] at h
      injection h with h1 h2
      have ha' : ':' ∉ as := fun hm => ha (List.mem_cons_of_mem _ hm)
      have hb' : ':' ∉ bs := fun hm => hb (List.mem_cons_of_mem _ hm)
      obtain ⟨h3, h4⟩ := ih bs x y ha' hb' h2
      exact ⟨by rw [h1, h3], h4⟩

theorem dailyCacheKey_data (s d l : String) :
    (dailyCacheKey s d l).data =
      'd' :: 'a' :: 'i' :: 'l' :: 'y' :: ':' ::
        (s.data ++ ':' :: (d.data ++ ':' :: l.data)) := by
  simp [dailyCacheKey, String.data_append]

theorem dailyCacheKey_inj {s d l s' d' l' : String}
    (hs : ':' ∉ s.data) (hs' : ':' ∉ s'.data)
    (hd : ':' ∉ d.data) (hd' : ':' ∉ d'.data)
    (h : dailyCacheKey s d l = dailyCacheKey s' d' l') :
    s = s' ∧ d = d' ∧ l = l' := by
  rw [String.ext_iff, dailyCacheKey_data, dailyCacheKey_data] at h
  simp only [List.cons.injEq, true_and] at h
  obtain ⟨h1, h2⟩ := colon_append_inj _ _ _ _ hs hs' h
  obtain ⟨h3, h4⟩ := colon_append_inj _ _ _ _ hd hd' h2
  exact ⟨String.ext h1, String.ext h3, String.ext h4⟩

theorem signs_colon_free : ∀ s ∈ SIGNS, ':' ∉ s.data := by decide

theorem days_colon_free : ∀ d ∈ DAY_VALUES, ':' ∉ d.data := by decide

theorem dailyHandler_accepted_status (dateF : String → String → String)
    (gen : GenOutcome GenDaily) (now : Nat) (c : CacheStore DailyPayload)
    (req : DailyReq) (hs : normSign req ∈ SIGNS) (hd : normDay req ∈ DAY_VALUES)
    (hl : normLang req ∈ LANGS) :
    (dailyHandler dateF gen now c req).resp.status ≠ 400 := by
  unfold dailyHandler
  rw [if_neg (not_not_intro hs), if_neg (not_not_intro hd),
      if_neg (not_not_intro hl)]
  cases hm : cacheHit c (reqKey req) now with
  | some e => dsimp only; decide
  | none =>
    cases gen with
    | fail => dsimp only; decide
    | ok j => dsimp only; decide

/-! ## Claim theorems -/

/-- C1: for every `GET /api/daily` request with valid normalized parameters,
the cache lookup returns the stored entry iff an entry is present under the
key and the current time is strictly below its `expiresAt`; on a hit the
cached payload is returned and the generator is not called; on a miss
(absent or expired entry, the latter left in place) the generator is called
and, when it succeeds, its shaped payload unconditionally overwrites the
entry with `expiresAt = now + TTL`. -/
theorem c1_daily_cache_semantics
    (dateF : String → String → String) (gen : GenOutcome GenDaily)
    (now : Nat) (c : CacheStore DailyPayload) (req : DailyReq)
    (hs : normSign req ∈ SIGNS) (hd : normDay req ∈ DAY_VALUES)
    (hl : normLang req ∈ LANGS) :
    (∀ e : CacheEntry DailyPayload,
        cacheHit c (reqKey req) now = some e ↔
          (cacheGet c (reqKey req) = some e ∧ now < e.expiresAt))
    ∧ (∀ e, cacheHit c (reqKey req) now = some e →
        dailyHandler dateF gen now c req = ⟨⟨200, Body.payload e.data⟩, c, false⟩)
    ∧ (cacheHit c (reqKey req) now = none →
        (dailyHandler dateF gen now c req).generatorCalled = true
        ∧ ∀ j, gen = GenOutcome.ok j →
            (dailyHandler dateF gen now c req).cache =
              cachePut c (reqKey req)
                ⟨mkDailyPayload dateF j (normSign req) (normDay req) (normLang req),
                 now + DAILY_TTL⟩
            ∧ cacheGet (dailyHandler dateF gen now c req).cache (reqKey req) =
                some ⟨mkDailyPayload dateF j (normSign req) (normDay req) (normLang req),
                      now + DAILY_TTL⟩) := by
  refine ⟨fun e => cacheHit_eq_some_iff c (reqKey req) now e, ?_, ?_⟩
  · intro e he
    unfold dailyHandler
    rw [if_neg (not_not_intro hs), if_neg (not_not_intro hd),
        if_neg (not_not_intro hl), he]
  · intro hm
    unfold dailyHandler
    rw [if_neg (not_not_intro hs), if_neg (not_not_intro hd),
        if_neg (not_not_intro hl), hm]
    cases gen with
    | fail =>
      refine ⟨rfl, ?_⟩
      intro j hj
      cases hj
    | ok j0 =>
      refine ⟨rfl, ?_⟩
      intro j hj
      injection hj with hj
      subst hj
      exact ⟨rfl, cacheGet_cachePut_self c (reqKey req) _⟩

/-- Witness for `c1_daily_cache_semantics` at the concrete request
`?sign=Leo` against an empty cache at time 0. -/
theorem c1_daily_cache_semantics_witness :
    (dailyHandler (fun _ _ => "d") (GenOutcome.ok emptyGenDaily) 0 []
        { sign := some "Leo" }).generatorCalled = true :=
  ((c1_daily_cache_semantics (fun _ _ => "d") (GenOutcome.ok emptyGenDaily) 0 []
      { sign := some "Leo" } (by decide) (by decide) (by decide)).2.2 rfl).1

/-- C2: a sign value whose lower-casing is outside the twelve-element zodiac
set is rejected with HTTP 400 and an error body, with the cache untouched
and no external call; a sign value in the set in any casing passes
validation (never a 400), and on the generator path the response payload
carries the lower-cased sign. -/
theorem c2_sign_validation_totality
    (dateF : String → String → String) (gen : GenOutcome GenDaily)
    (now : Nat) (c : CacheStore DailyPayload) (req : DailyReq) :
    (normSign req ∉ SIGNS →
      dailyHandler dateF gen now c req = ⟨⟨400, Body.err "Invalid sign"⟩, c, false⟩)
    ∧ (normSign req ∈ SIGNS → normDay req ∈ DAY_VALUES → normLang req ∈ LANGS →
        (dailyHandler dateF gen now c req).resp.status ≠ 400
        ∧ ∀ j, gen = GenOutcome.ok j → cacheHit c (reqKey req) now = none →
            (dailyHandler dateF gen now c req).resp =
              ⟨200, Body.payload
                (mkDailyPayload dateF j (normSign req) (normDay req) (normLang req))⟩
            ∧ (mkDailyPayload dateF j (normSign req) (normDay req)
                (normLang req)).sign = jsToLower (jsStringOr req.sign "")) := by
  constructor
  · intro h
    unfold dailyHandler
    rw [if_pos h]
  · intro hs hd hl
    unfold dailyHandler
    rw [if_neg (not_not_intro hs), if_neg (not_not_intro hd),
        if_neg (not_not_intro hl)]
    cases hm : cacheHit c (reqKey req) now with
    | some e =>
      dsimp only
      refine ⟨by decide, ?_⟩
      intro j hj hnone
      cases hnone
    | none =>
      cases gen with
      | fail =>
        dsimp only
        refine ⟨by decide, ?_⟩
        intro j hj
        cases hj
      | ok j0 =>
        dsimp only
        refine ⟨by decide, ?_⟩
        intro j hj _
        injection hj with hj
        subst hj
        exact ⟨rfl, rfl⟩

/-- Witness for `c2_sign_validation_totality`: `?sign=LEO` (upper case) is
accepted and the shaped payload's sign is `"leo"`. -/
theorem c2_sign_validation_totality_witness :
    (mkDailyPayload (fun _ _ => "d") emptyGenDaily
        (normSign { sign := some "LEO" }) (normDay { sign := some "LEO" })
        (normLang { sign := some "LEO" })).sign =
      jsToLower (jsStringOr (some "LEO") "") :=
  (((c2_sign_validation_totality (fun _ _ => "d") (GenOutcome.ok emptyGenDaily) 0 []
      { sign := some "LEO" }).2 (by decide) (by decide) (by decide)).2
    emptyGenDaily rfl rfl).2

/-- C5: no negative caching in `server.js`'s daily endpoint: every failing
request (400 from validation or 500 from a generator failure) leaves the
cache store exactly as it was, and a subsequent identical request that
still misses the cache re-attempts the external call. -/
theorem c5_no_negative_caching
    (dateF : String → String → String) (gen : GenOutcome GenDaily)
    (now : Nat) (c : CacheStore DailyPayload) (req : DailyReq) :
    (((dailyHandler dateF gen now c req).resp.status = 400 ∨
      (dailyHandler dateF gen now c req).resp.status = 500) →
      (dailyHandler dateF gen now c req).cache = c)
    ∧ (normSign req ∈ SIGNS → normDay req ∈ DAY_VALUES → normLang req ∈ LANGS →
        cacheHit c (reqKey req) now = none →
        (gen = GenOutcome.fail → (dailyHandler dateF gen now c req).cache = c)
        ∧ (dailyHandler dateF gen now c req).generatorCalled = true) := by
  constructor
  · intro h
    by_cases h1 : normSign req ∉ SIGNS
    · simp only [dailyHandler, if_pos h1]
    · by_cases h2 : normDay req ∉ DAY_VALUES
      · simp only [dailyHandler, if_neg h1, if_pos h2]
      · by_cases h3 : normLang req ∉ LANGS
        · simp only [dailyHandler, if_neg h1, if_neg h2, if_pos h3]
        · cases hm : cacheHit c (reqKey req) now with
          | some e =>
            simp only [dailyHandler, if_neg h1, if_neg h2, if_neg h3, hm]
          | none =>
            cases gen with
            | fail => simp only [dailyHandler, if_neg h1, if_neg h2, if_neg h3, hm]
            | ok j =>
              simp only [dailyHandler, if_neg h1, if_neg h2, if_neg h3, hm] at h
              rcases h with h | h
              · exact absurd h (by decide)
              · exact absurd h (by decide)
  · intro hs hd hl hm
    unfold dailyHandler
    rw [if_neg (not_not_intro hs), if_neg (not_not_intro hd),
        if_neg (not_not_intro hl), hm]
    cases gen with
    | fail => exact ⟨fun _ => rfl, rfl⟩
    | ok j =>
      refine ⟨?_, rfl⟩
      intro hj
      cases hj

/-- Witness for `c5_no_negative_caching`: at `?sign=leo` with a failing
generator and empty cache, the cache stays empty. -/
theorem c5_no_negative_caching_witness :
    (dailyHandler (fun _ _ => "d") GenOutcome.fail 0 []
        { sign := some "leo" }).cache = [] :=
  (((c5_no_negative_caching (fun _ _ => "d") GenOutcome.fail 0 []
      { sign := some "leo" }).2 (by decide) (by decide) (by decide) rfl).1) rfl

/-- C3: the daily cache key is a deterministic, injective function of the
normalized parameters — over all valid (sign, day, lang) tuples the keys
are equal exactly when the tuples are, so tuples differing in any one
component never share an entry — and the personalized endpoint never
touches the cache store at all, so the two endpoint types cannot share an
entry either. -/
theorem c3_cache_key_injective :
    (∀ s ∈ SIGNS, ∀ d ∈ DAY_VALUES, ∀ l ∈ LANGS,
     ∀ s' ∈ SIGNS, ∀ d' ∈ DAY_VALUES, ∀ l' ∈ LANGS,
       (dailyCacheKey s d l = dailyCacheKey s' d' l' ↔ (s = s' ∧ d = d' ∧ l = l')))
    ∧ (∀ (dateF : String → String → String) (gen : GenOutcome GenPers)
         (c : CacheStore DailyPayload) (req : PersReq),
        (persHandler dateF gen c req).cache = c) := by
  constructor
  · intro s hs d hd l hl s' hs' d' hd' l' hl'
    constructor
    · intro h
      exact dailyCacheKey_inj (signs_colon_free s hs) (signs_colon_free s' hs')
        (days_colon_free d hd) (days_colon_free d' hd') h
    · rintro ⟨rfl, rfl, rfl⟩
      rfl
  · exact fun dateF gen c req => persHandler_cache_frame dateF gen c req

/-- Witness for `c3_cache_key_injective` at two concrete tuples differing
only in the day component. -/
theorem c3_cache_key_injective_witness :
    dailyCacheKey "aries" "today" "en" = dailyCacheKey "aries" "tomorrow" "en" ↔
      ("aries" = "aries" ∧ "today" = "tomorrow" ∧ "en" = "en") :=
  c3_cache_key_injective.1 "aries" (by decide) "today" (by decide) "en" (by decide)
    "aries" (by decide) "tomorrow" (by decide) "en" (by decide)

/-- C7: in the derived styling suggestion, a colour hit in the static table
short-circuits the mood lookup — for colour `"Red"` (a key of the English
colour table) the tip is the table's `"Red"` entry for every mood, and that
entry is never one of the mood-table entries — while a non-falsy
`fashion_tip` supplied directly by the generator always wins over the
table-derived value. -/
theorem c7_fallback_precedence :
    (∀ mood : Option String,
       fashionTip (some "Red") mood "en" =
         "Go for a bold accent. A red bag or lip is enough.")
    ∧ (∀ mood : Option String,
       fashionTip (some "Red") mood "en" ∉ packEn.byMood.map Prod.snd)
    ∧ (∀ (dateF : String → String → String) (j : GenDaily)
         (sign day lang s : String),
        j.fashion_tip = some s → s ≠ "" →
        (mkDailyPayload dateF j sign day lang).fashion_tip = s) := by
  refine ⟨fun mood => rfl, fun mood => ?_, ?_⟩
  · have h : fashionTip (some "Red") mood "en" =
        "Go for a bold accent. A red bag or lip is enough." := rfl
    rw [h]
    decide
  · intro dateF j sign day lang s hft hs
    simp [mkDailyPayload, orDefault, truthyStr, hft, hs]

/-- Witness for `c7_fallback_precedence`: a generator-supplied tip wins at a
concrete input. -/
theorem c7_fallback_precedence_witness :
    (mkDailyPayload (fun _ _ => "d") { fashion_tip := some "Wear velvet." }
        "leo" "today" "en").fashion_tip = "Wear velvet." :=
  c7_fallback_precedence.2.2 (fun _ _ => "d") { fashion_tip := some "Wear velvet." }
    "leo" "today" "en" "Wear velvet." rfl (by decide)

/-- C9: the personalized endpoint never reads or writes the cache store —
after any personalized request, valid or invalid, the cache mapping is
unchanged — and every request that passes validation invokes the external
generator. -/
theorem c9_personalized_no_cache :
    ∀ (dateF : String → String → String) (gen : GenOutcome GenPers)
      (c : CacheStore DailyPayload) (req : PersReq),
      (persHandler dateF gen c req).cache = c
      ∧ (jsToLower (jsStringOr req.sun "") ∈ SIGNS →
         (jsToLower (jsStringOr req.rising "") = "" ∨
          jsToLower (jsStringOr req.rising "") ∈ SIGNS) →
         jsToLower (jsStringOr req.day "today") ∈ DAY_VALUES →
         jsToLower (jsStringOr req.lang "en") ∈ LANGS →
         (persHandler dateF gen c req).generatorCalled = true) := by
  intro dateF gen c req
  refine ⟨persHandler_cache_frame dateF gen c req, ?_⟩
  intro h1 h2 h3 h4
  have h2' : ¬(jsToLower (jsStringOr req.rising "") ≠ "" ∧
      jsToLower (jsStringOr req.rising "") ∉ SIGNS) := by
    rcases h2 with h | h
    · intro hc; exact hc.1 h
    · intro hc; exact hc.2 h
  unfold persHandler
  rw [if_neg (not_not_intro h1), if_neg h2', if_neg (not_not_intro h3),
      if_neg (not_not_intro h4)]
  cases gen with
  | fail => rfl
  | ok j => rfl

/-- Witness for `c9_personalized_no_cache`: a valid personalized request
with sun `leo` and no rising invokes the generator. -/
theorem c9_personalized_no_cache_witness :
    (persHandler (fun _ _ => "d") (GenOutcome.ok ({} : GenPers)) []
        { sun := some "leo" }).generatorCalled = true :=
  (c9_personalized_no_cache (fun _ _ => "d") (GenOutcome.ok ({} : GenPers)) []
      { sun := some "leo" }).2 (by decide) (Or.inl (by decide)) (by decide)
    (by decide)

/-- C10: for `GET /api/daily` an absent or empty day defaults to "today"
and an absent or empty lang to "en" before validation — the handler's
behaviour is identical to the explicitly defaulted request, and a valid
sign with both omitted is never rejected — while an absent or empty sign
normalizes to `""`, which is outside the zodiac set, so the request is
rejected with 400. -/
theorem c10_day_lang_defaults
    (dateF : String → String → String) (gen : GenOutcome GenDaily)
    (now : Nat) (c : CacheStore DailyPayload) :
    (∀ s l, dailyHandler dateF gen now c { sign := s, day := none, lang := l } =
        dailyHandler dateF gen now c { sign := s, day := some "today", lang := l })
    ∧ (∀ s l, dailyHandler dateF gen now c { sign := s, day := some "", lang := l } =
        dailyHandler dateF gen now c { sign := s, day := some "today", lang := l })
    ∧ (∀ s d, dailyHandler dateF gen now c { sign := s, day := d, lang := none } =
        dailyHandler dateF gen now c { sign := s, day := d, lang := some "en" })
    ∧ (∀ s d, dailyHandler dateF gen now c { sign := s, day := d, lang := some "" } =
        dailyHandler dateF gen now c { sign := s, day := d, lang := some "en" })
    ∧ (∀ s : Option String,
        normSign { sign := s, day := none, lang := none } ∈ SIGNS →
        (dailyHandler dateF gen now c { sign := s }).resp.status ≠ 400)
    ∧ (∀ d l, (dailyHandler dateF gen now c
          { sign := none, day := d, lang := l }).resp =
        ⟨400, Body.err "Invalid sign"⟩)
    ∧ (∀ d l, (dailyHandler dateF gen now c
          { sign := some "", day := d, lang := l }).resp =
        ⟨400, Body.err "Invalid sign"⟩) := by
  refine ⟨fun s l => rfl, fun s l => rfl, fun s d => rfl, fun s d => rfl,
    ?_, ?_, ?_⟩
  · intro s hs
    refine dailyHandler_accepted_status dateF gen now c { sign := s } hs ?_ ?_
    · rw [show normDay { sign := s, day := none, lang := none } = "today" from rfl]
      decide
    · rw [show normLang { sign := s, day := none, lang := none } = "en" from rfl]
      decide
  · intro d l
    have h : normSign { sign := none, day := d, lang := l } ∉ SIGNS := by
      rw [show normSign { sign := none, day := d, lang := l } = "" from rfl]
      decide
    unfold dailyHandler
    rw [if_pos h]
  · intro d l
    have h : normSign { sign := some "", day := d, lang := l } ∉ SIGNS := by
      rw [show normSign { sign := some "", day := d, lang := l } = "" from rfl]
      decide
    unfold dailyHandler
    rw [if_pos h]

/-- Witness for `c10_day_lang_defaults`: `?sign=leo` with day and lang
omitted is not rejected. -/
theorem c10_day_lang_defaults_witness :
    (dailyHandler (fun _ _ => "d") GenOutcome.fail 0 []
        { sign := some "leo" }).resp.status ≠ 400 :=
  (c10_day_lang_defaults (fun _ _ => "d") GenOutcome.fail 0 []).2.2.2.2.1
    (some "leo") (by decide)

/-- C4 counterexample: in `server.js`, a generator failure on the valid
request `?sign=leo` (empty cache, time 0) is answered with HTTP 500 and an
error body — not a 200 with a fallback payload as the claim states. -/
theorem c4_generator_failure_counterexample :
    dailyHandler (fun _ _ => "d") GenOutcome.fail 0 [] { sign := some "leo" } =
      ⟨⟨500, Body.err "Server error"⟩, [], true⟩ ∧ (500 : Nat) ≠ 200 :=
  ⟨rfl, by decide⟩

/-- C4 (amended): in `server.js` a generator failure on a valid
cache-missing daily request is surfaced as HTTP 500 with an error body,
the cache left unchanged; only the `part_000` variant answers HTTP 200
with the complete static fallback payload. -/
theorem c4_generator_failure_amended :
    (∀ (dateF : String → String → String) (now : Nat)
       (c : CacheStore DailyPayload) (req : DailyReq),
       normSign req ∈ SIGNS → normDay req ∈ DAY_VALUES → normLang req ∈ LANGS →
       cacheHit c (reqKey req) now = none →
       dailyHandler dateF GenOutcome.fail now c req =
         ⟨⟨500, Body.err "Server error"⟩, c, true⟩)
    ∧ (∀ (todayStr : String) (now : Nat) (c : CacheStore TrPayload) (req : TrReq),
       trNormSign req ∈ SIGNS → trNormDay req ∈ DAY_VALUES →
       cacheHit c (trKey req) now = none →
       trDailyHandler todayStr GenOutcome.fail now c req =
         ⟨⟨200, Body.payload (trFallbackPayload todayStr req)⟩, c, true⟩) := by
  constructor
  · intro dateF now c req hs hd hl hm
    unfold dailyHandler
    rw [if_neg (not_not_intro hs), if_neg (not_not_intro hd),
        if_neg (not_not_intro hl), hm]
  · intro todayStr now c req hs hd hm
    unfold trDailyHandler
    rw [if_neg (not_not_intro hs), if_neg (not_not_intro hd), hm]

/-- Witness for `c4_generator_failure_amended`: the Turkish variant answers
a failing generator at `?sign=leo` with 200 and the static fallback. -/
theorem c4_generator_failure_amended_witness :
    trDailyHandler "1.1.2025" GenOutcome.fail 0 [] { sign := some "leo" } =
      ⟨⟨200, Body.payload (trFallbackPayload "1.1.2025" { sign := some "leo" })⟩,
       [], true⟩ :=
  c4_generator_failure_amended.2 "1.1.2025" 0 [] { sign := some "leo" }
    (by decide) (by decide) rfl

/-- C6 counterexample: in `server.js`, shaping a generator result with every
optional field absent yields `mood = ""` and `color = ""`, not the
`"Balanced"`/`"Gray"` defaults the claim states. -/
theorem c6_default_fill_counterexample :
    (mkDailyPayload (fun _ _ => "d") emptyGenDaily "leo" "today" "en").mood = ""
    ∧ (mkDailyPayload (fun _ _ => "d") emptyGenDaily "leo" "today" "en").color = ""
    ∧ (mkDailyPayload (fun _ _ => "d") emptyGenDaily "leo" "today" "en").mood ≠
        "Balanced"
    ∧ (mkDailyPayload (fun _ _ => "d") emptyGenDaily "leo" "today" "en").color ≠
        "Gray" := by
  refine ⟨rfl, rfl, ?_, ?_⟩ <;> decide

/-- C6 (amended): with a generator result omitting every optional field the
shaped payload still assigns every schema field a value: in `server.js`
the text fields default to the empty string and the palette to `[]`, while
the mood/colour default table (mood → `"Dengeli"`, i.e. Balanced; colour →
`"Gri"`, i.e. Gray) lives in the Turkish `part_000` variant, whose shaping
substitutes exactly those values and derives the styling tip from them. -/
theorem c6_default_fill_amended
    (todayStr sign day lang : String) (dateF : String → String → String)
    (hs : sign ∈ SIGNS) :
    ((mkTrPayload todayStr {} sign day).ruh_hali = "Dengeli"
     ∧ (mkTrPayload todayStr {} sign day).renk = "Gri"
     ∧ (mkTrPayload todayStr {} sign day).moda_onerisi =
         "Sade tonlar ve net kesimler seç."
     ∧ (mkTrPayload todayStr {} sign day).marka = "AstroVogue")
    ∧ ((mkDailyPayload dateF emptyGenDaily sign day lang).mood = ""
       ∧ (mkDailyPayload dateF emptyGenDaily sign day lang).color = ""
       ∧ (mkDailyPayload dateF emptyGenDaily sign day lang).description = ""
       ∧ (mkDailyPayload dateF emptyGenDaily sign day lang).palette = []
       ∧ (mkDailyPayload dateF emptyGenDaily sign day lang).image =
           "/img/" ++ sign ++ ".jpg") := by
  refine ⟨⟨rfl, rfl, rfl, rfl⟩, rfl, rfl, rfl, rfl, ?_⟩
  simp [mkDailyPayload, signImage, hs]

/-- Witness for `c6_default_fill_amended` at sign `leo`. -/
theorem c6_default_fill_amended_witness :
    (mkDailyPayload (fun _ _ => "d") emptyGenDaily "leo" "today" "en").image =
      "/img/" ++ "leo" ++ ".jpg" :=
  (c6_default_fill_amended "t" "leo" "today" "en" (fun _ _ => "d")
      (by decide)).2.2.2.2.2

/-- C8 counterexample: in the astrology-data-API variant (`part_001`), a
failing data-source fetch at the valid request `?sign=leo&day=today` is
attempted exactly once — not up to 3 times — and the handler answers HTTP
500 with the error message, not a substituted default payload. -/
theorem c8_no_retry_counterexample :
    aztroDailyHandler (FetchOutcome.fail "Aztro error 503: oops") 0 []
        { sign := some "leo", day := some "today" } =
      ⟨⟨500, Body.err "Aztro error 503: oops"⟩, [], 1⟩
    ∧ (1 : Nat) ≠ 3 ∧ (500 : Nat) ≠ 200 :=
  ⟨rfl, by decide, by decide⟩

/-- C8 (amended): in the astrology-data-API variant the data-source fetch of
a valid cache-missing request is attempted exactly once — there is no
retry loop and no locally-built default payload: a failing fetch surfaces
as HTTP 500 carrying the error message, with the cache unchanged. -/
theorem c8_no_retry_amended (msg : String) (now : Nat)
    (c : CacheStore AztroPayload) (req : TrReq)
    (hs : trNormSign req ∈ SIGNS) (hd : trNormDay req ∈ DAY_VALUES)
    (hm : cacheHit c (trNormSign req ++ ":" ++ trNormDay req) now = none) :
    aztroDailyHandler (FetchOutcome.fail msg) now c req =
      ⟨⟨500, Body.err msg⟩, c, 1⟩ := by
  unfold aztroDailyHandler
  rw [if_neg (not_not_intro hs), if_neg (not_not_intro hd), hm]

/-- Witness for `c8_no_retry_amended` at `?sign=aries&day=tomorrow`. -/
theorem c8_no_retry_amended_witness :
    aztroDailyHandler (FetchOutcome.fail "boom") 7 []
        { sign := some "aries", day := some "tomorrow" } =
      ⟨⟨500, Body.err "boom"⟩, [], 1⟩ :=
  c8_no_retry_amended "boom" 7 [] { sign := some "aries", day := some "tomorrow" }
    (by decide) (by decide) rfl

end AstroApi
